import Mathlib

/-!
Shallow embedding of the NariKawach safety state controller.

The definitions below are translated from the repository's view-layer code:
  * `src/frontend/src/pages/Home.tsx` — trip lifecycle, risk status, panic;
  * `src/frontend/src/components/FeatureCard.tsx` — the demo-mode simulator;
  * `src/frontend/src/pages/Emergency.tsx` — the return-from-emergency handler;
  * `src/unnamed/part_002` — guardian form validation (zod schema);
  * `src/unnamed/part_005` — the location watcher and its risk-oracle call.

The external store (supabase tables `trips`, `risk_status`, `guardians`) is
modelled as a per-user record `DB`; each successful store call is a pure
update of that record.
-/

namespace NariKawach

/-- Risk levels, as in `type RiskLevel = "low" | "medium" | "high"`. -/
inductive RiskLevel where
  | low
  | medium
  | high
deriving DecidableEq, Repr

/-- Safety statuses, as in `type SafetyStatus = "safe" | "monitoring" | "emergency"`. -/
inductive SafetyStatus where
  | safe
  | monitoring
  | emergency
deriving DecidableEq, Repr

/-- Trip statuses stored in the `trips` table. -/
inductive TripStatus where
  | active
  | completed
  | emergency
deriving DecidableEq, Repr

/-- A row of the `trips` table (fields relevant to the controller). -/
structure Trip where
  id : Nat
  status : TripStatus
  endedAt : Option Nat
  endRiskLevel : Option RiskLevel
deriving DecidableEq, Repr

/-- The (unique per user) row of the `risk_status` table. -/
structure RiskStatusRow where
  riskLevel : RiskLevel
  reason : String
deriving DecidableEq, Repr

/-- The per-user slice of the external store: the user's trip rows, the
optional unique `risk_status` row, and the generator for fresh trip ids. -/
structure DB where
  trips : List Trip
  riskStatus : Option RiskStatusRow
  nextId : Nat
deriving DecidableEq, Repr

/-- The in-memory state held by the `Home` component:
`isTripActive`, `currentTripId`, `riskLevel`, `riskReason`, `safetyStatus`. -/
structure HomeState where
  isTripActive : Bool
  currentTripId : Option Nat
  riskLevel : RiskLevel
  riskReason : String
  safetyStatus : SafetyStatus
deriving DecidableEq, Repr

/-- The derivation rule as the spec states it: `safetyStatus` as a pure
function of `(tripActive, riskLevel)`.  (Spec §4.1; compared below against
the functions translated from the source.) -/
def deriveSafetyStatus (tripActive : Bool) (level : RiskLevel) : SafetyStatus :=
  match level with
  | .high => .emergency
  | .medium => .monitoring
  | .low => if tripActive then .monitoring else .safe

/-- `handleDemoRiskChange` from `Home.tsx` (lines 34–43): sets `riskLevel`
and recomputes `safetyStatus`, consulting `isTripActive` at `low`. -/
def handleDemoRiskChange (s : HomeState) (level : RiskLevel) : HomeState :=
  { s with
    riskLevel := level
    safetyStatus :=
      if level = .high then .emergency
      else if level = .medium then .monitoring
      else if s.isTripActive then .monitoring else .safe }

/-- The resolution handler of `fetchRiskStatus` from `Home.tsx` (lines
88–113), applied to the snapshot of the `risk_status` row the fetch read:
if a row was found it sets `riskLevel` and `riskReason` from the row and
recomputes `safetyStatus` from the row's level alone (`low` maps to `safe`
without consulting `isTripActive`); if no row was found, state is unchanged. -/
def applyFetchResult (s : HomeState) (snapshot : Option RiskStatusRow) : HomeState :=
  match snapshot with
  | none => s
  | some row =>
    { s with
      riskLevel := row.riskLevel
      riskReason := row.reason
      safetyStatus :=
        if row.riskLevel = .high then .emergency
        else if row.riskLevel = .medium then .monitoring
        else .safe }

/-- `fetchRiskStatus` from `Home.tsx`: read the `risk_status` row and apply it. -/
def fetchRiskStatus (s : HomeState) (db : DB) : HomeState :=
  applyFetchResult s db.riskStatus

/-- `startTrip` from `Home.tsx` (lines 115–137): unconditionally inserts a
new `trips` row with `status = active`, then sets `currentTripId` to the new
id, `isTripActive := true` and `safetyStatus := monitoring`.  (No query for
an existing active trip is performed.) -/
def startTrip (s : HomeState) (db : DB) : HomeState × DB :=
  let newTrip : Trip := { id := db.nextId, status := .active, endedAt := none, endRiskLevel := none }
  ({ s with
      currentTripId := some db.nextId
      isTripActive := true
      safetyStatus := .monitoring },
   { db with trips := db.trips ++ [newTrip], nextId := db.nextId + 1 })

/-- `endTrip` from `Home.tsx` (lines 139–167).  Guard: returns unchanged when
`currentTripId` is null.  Otherwise updates the trip row with that id to
`completed`, stamping `ended_at := now` and `end_risk_level := riskLevel`;
updates the `risk_status` row (if one exists) to `low` / "Trip ended safely";
and resets the local state. -/
def endTrip (s : HomeState) (db : DB) (now : Nat) : HomeState × DB :=
  match s.currentTripId with
  | none => (s, db)
  | some tid =>
    ({ s with
        isTripActive := false
        currentTripId := none
        safetyStatus := .safe
        riskLevel := .low },
     { db with
        trips := db.trips.map (fun t =>
          if t.id = tid then
            { t with status := .completed, endedAt := some now, endRiskLevel := some s.riskLevel }
          else t)
        riskStatus := db.riskStatus.map (fun _ => ⟨.low, "Trip ended safely"⟩) })

/-- `handleTripToggle` from `Home.tsx` (lines 169–175): while a trip is
active the button only opens the end-trip confirmation dialog (no state
change); otherwise it calls `startTrip`. -/
def handleTripToggle (s : HomeState) (db : DB) : HomeState × DB :=
  if s.isTripActive then (s, db) else startTrip s db

/-- `triggerPanic` from `Home.tsx` (lines 177–238), success path:
1. upsert the `risk_status` row to `high` / "Panic button activated"
   (update if a row exists, insert otherwise);
2. if no trip is active, insert a new active trip row and set
   `currentTripId` / `isTripActive` (no location required);
3. set local `riskLevel := high` and `safetyStatus := emergency`. -/
def triggerPanic (s : HomeState) (db : DB) : HomeState × DB :=
  let db1 : DB := { db with riskStatus := some ⟨.high, "Panic button activated"⟩ }
  let next :=
    if s.isTripActive then (s, db1)
    else
      let newTrip : Trip := { id := db1.nextId, status := .active, endedAt := none, endRiskLevel := none }
      ({ s with currentTripId := some db1.nextId, isTripActive := true },
       { db1 with trips := db1.trips ++ [newTrip], nextId := db1.nextId + 1 })
  ({ next.1 with riskLevel := .high, safetyStatus := .emergency }, next.2)

/-- A session world: the `Home` component state, the store, and the
at-most-one pending asynchronous risk fetch.  A pending fetch carries the
snapshot of the `risk_status` row it read at start time; resolving it runs
`fetchRiskStatus`'s handler on that snapshot. -/
structure World where
  home : HomeState
  db : DB
  pending : Option (Option RiskStatusRow)
deriving DecidableEq, Repr

/-- Session events interleaving the automatic risk fetch with panic. -/
inductive Event where
  | fetchStart
  | fetchResolve
  | panic
deriving DecidableEq, Repr

/-- One event of the session.  `fetchStart` snapshots the stored row;
`fetchResolve` applies the pending snapshot through `applyFetchResult`
(unconditionally — the code has no sequence-number guard); `panic` runs
`triggerPanic` (which does not consult or cancel the pending fetch). -/
def stepEvent (w : World) : Event → World
  | .fetchStart => { w with pending := some w.db.riskStatus }
  | .fetchResolve =>
    match w.pending with
    | some snap => { w with home := applyFetchResult w.home snap, pending := none }
    | none => w
  | .panic =>
    let p := triggerPanic w.home w.db
    { home := p.1, db := p.2, pending := w.pending }

/-- Run a sequence of session events. -/
def runEvents (w : World) : List Event → World
  | [] => w
  | e :: es => runEvents (stepEvent w e) es

/-- Number of rows with `status = active` in the user's `trips` table. -/
def countActive (db : DB) : Nat :=
  (db.trips.filter (fun t => t.status = .active)).length

/-- UI-level events for the trip lifecycle: the start/end toggle button and
the end-trip confirmation dialog. -/
inductive UIEvent where
  | toggle
  | endTripConfirm (now : Nat)
deriving DecidableEq, Repr

/-- One UI-level step: `toggle` runs `handleTripToggle`; confirming the
end-trip dialog runs `endTrip`. -/
def uiStep (s : HomeState) (db : DB) : UIEvent → HomeState × DB
  | .toggle => handleTripToggle s db
  | .endTripConfirm now => endTrip s db now

/-- Run a sequence of UI-level events. -/
def uiRun (s : HomeState) (db : DB) : List UIEvent → HomeState × DB
  | [] => (s, db)
  | e :: es =>
    let p := uiStep s db e
    uiRun p.1 p.2 es

/-- Initial `Home` component state. -/
def initHome : HomeState :=
  { isTripActive := false, currentTripId := none, riskLevel := .low
    riskReason := "", safetyStatus := .safe }

/-- A store with no trip rows and no risk row. -/
def emptyDB : DB := { trips := [], riskStatus := none, nextId := 0 }

/-- `handleReturnHome` from `Emergency.tsx` (lines 238–248, store-backed
variant): if a session user exists, update the `risk_status` row (if one
exists) to `low` / "Emergency resolved"; nothing else is touched; then
navigate home. -/
def handleReturnHome (hasSession : Bool) (db : DB) : DB :=
  if hasSession then
    { db with riskStatus := db.riskStatus.map (fun _ => ⟨.low, "Emergency resolved"⟩) }
  else db

/-! ### Demo-mode simulator (`DemoModePanel`, `FeatureCard.tsx` lines 63–99) -/

/-- The panel's local state: `isAutoSimulating` and `simulationStep`. -/
structure DemoState where
  autoSim : Bool
  step : Nat
deriving DecidableEq, Repr

/-- The escalation sequence `const steps: RiskLevel[] = ["low", "medium", "high"]`. -/
def demoSteps : List RiskLevel := [.low, .medium, .high]

/-- `handleAutoSimulate`: no-op while no trip is active; otherwise sets
`isAutoSimulating := true`, resets `simulationStep := 0` and immediately
emits `onRiskChange("low")`. -/
def handleAutoSimulate (tripActive : Bool) (d : DemoState) : DemoState × Option RiskLevel :=
  if tripActive then (⟨true, 0⟩, some .low) else (d, none)

/-- `stopSimulation`: clears `isAutoSimulating` and resets the step; emits
nothing (the current risk level is left as it is). -/
def stopSimulation (_d : DemoState) : DemoState × Option RiskLevel :=
  (⟨false, 0⟩, none)

/-- One firing of the 3-second interval.  The interval only exists while
`isAutoSimulating && isTripActive` (the effect clears it otherwise), so the
tick is a no-op outside that window.  Inside it: advance the step; past the
end of the sequence stop simulating and emit nothing, otherwise emit the
step's risk level. -/
def demoTick (tripActive : Bool) (d : DemoState) : DemoState × Option RiskLevel :=
  if d.autoSim && tripActive then
    let next := d.step + 1
    if demoSteps.length ≤ next then (⟨false, 0⟩, none)
    else (⟨true, next⟩, demoSteps[next]?)
  else (d, none)

/-- Events of the demo panel: the start button, the stop button, and a
firing of the interval timer. -/
inductive DemoEvent where
  | start
  | stop
  | tick
deriving DecidableEq, Repr

/-- One demo-panel event. -/
def demoStep (tripActive : Bool) (d : DemoState) : DemoEvent → DemoState × Option RiskLevel
  | .start => handleAutoSimulate tripActive d
  | .stop => stopSimulation d
  | .tick => demoTick tripActive d

/-- Run a list of demo-panel events, collecting the emitted `riskUpdate`s. -/
def demoRun (tripActive : Bool) (d : DemoState) : List DemoEvent → DemoState × List RiskLevel
  | [] => (d, [])
  | e :: es =>
    let p := demoStep tripActive d e
    let q := demoRun tripActive p.1 es
    (q.1, p.2.toList ++ q.2)

/-! ### Location watcher (`LocationMap`, `src/unnamed/part_005`) -/

/-- A geolocation fix (coordinates abstracted to integers; the numeric
values play no role in the claims). -/
structure Coords where
  lat : Int
  lng : Int
  accuracy : Int
deriving DecidableEq, Repr

/-- The response of the external `/risk/calculate` oracle. -/
structure RiskResponse where
  risk_level : String
deriving DecidableEq, Repr

/-- The `LocationMap` component's local state. -/
structure MapState where
  location : Option Coords
  risk : Option RiskResponse
  error : Option String
deriving DecidableEq, Repr

/-- The `watchPosition` success callback (part_005 lines 133–162): store the
new location, clear the error, then call the external risk oracle inside
`try`/`catch`.  `riskResult = some r` models a successful call (the response
is stored); `riskResult = none` models any network or service failure (the
`catch` only logs — the previous `risk` value is kept and no error state is
set). -/
def onPositionSuccess (s : MapState) (pos : Coords) (riskResult : Option RiskResponse) : MapState :=
  let s1 : MapState := { s with location := some pos, error := none }
  match riskResult with
  | some r => { s1 with risk := some r }
  | none => s1

/-! ### Guardian form validation (`src/unnamed/part_002`) -/

/-- A row of the `guardians` table. -/
structure GuardianRow where
  id : Nat
  name : String
  phone : String
deriving DecidableEq, Repr

/-- The guardian list plus a fresh-id generator. -/
structure GuardianState where
  rows : List GuardianRow
  nextId : Nat
deriving DecidableEq, Repr

/-- The zod `guardianSchema` (part_002 lines 33–36): trim both fields, then
require `1 ≤ |name| ≤ 100` and `10 ≤ |phone| ≤ 20` on the trimmed strings. -/
def guardianSchemaCheck (name phone : String) : Bool :=
  let n := name.trim
  let p := phone.trim
  (1 ≤ n.length && n.length ≤ 100) && (10 ≤ p.length && p.length ≤ 20)

/-- `handleAddGuardian` (part_002 lines 324–360, store-backed variant):
validate with the schema; on failure show a toast and return without any
write; on success insert a row with the trimmed name and phone. -/
def handleAddGuardian (st : GuardianState) (name phone : String) : GuardianState :=
  if guardianSchemaCheck name phone then
    { rows := st.rows ++ [⟨st.nextId, name.trim, phone.trim⟩], nextId := st.nextId + 1 }
  else st

/-! ## Theorems -/

/-- C1 (counterexample): the claim that every operation recomputes
`safetyStatus` by the derivation rule is false at a concrete input:
with a trip active, `fetchRiskStatus` resolving a `low` row sets
`safetyStatus = safe`, while the derivation rule yields `monitoring`. -/
theorem fetch_low_ignores_tripActive :
    (applyFetchResult
        { isTripActive := true, currentTripId := some 0, riskLevel := .low
          riskReason := "", safetyStatus := .monitoring }
        (some ⟨.low, "all clear"⟩)).safetyStatus = .safe
    ∧ (applyFetchResult
        { isTripActive := true, currentTripId := some 0, riskLevel := .low
          riskReason := "", safetyStatus := .monitoring }
        (some ⟨.low, "all clear"⟩)).isTripActive = true
    ∧ deriveSafetyStatus true .low = .monitoring := by
  exact ⟨rfl, rfl, rfl⟩

/-- C1 (amended): `handleDemoRiskChange` recomputes `safetyStatus` as the
pure derivation function of `(isTripActive, level)` and sets the requested
risk level; `applyFetchResult` agrees with the derivation rule only when no
trip is active or the fetched level is not `low` (at an active trip and a
fetched `low` it produces `safe` instead of `monitoring`). -/
theorem safetyStatus_derivation_amended (s : HomeState) (level : RiskLevel)
    (row : RiskStatusRow) (h : s.isTripActive = false ∨ row.riskLevel ≠ .low) :
    (handleDemoRiskChange s level).safetyStatus = deriveSafetyStatus s.isTripActive level
    ∧ (handleDemoRiskChange s level).riskLevel = level
    ∧ (applyFetchResult s (some row)).safetyStatus
        = deriveSafetyStatus s.isTripActive row.riskLevel := by
  refine ⟨?_, rfl, ?_⟩
  · cases level <;> simp [handleDemoRiskChange, deriveSafetyStatus]
  · rcases h with h | h
    · cases hr : row.riskLevel <;>
        simp [applyFetchResult, deriveSafetyStatus, h, hr]
    · cases hr : row.riskLevel <;>
        simp_all [applyFetchResult, deriveSafetyStatus]

/-- C1 (witness): the amended statement applied at a concrete state. -/
theorem safetyStatus_derivation_amended_witness :
    (handleDemoRiskChange initHome .medium).safetyStatus
        = deriveSafetyStatus initHome.isTripActive .medium
    ∧ (handleDemoRiskChange initHome .medium).riskLevel = .medium
    ∧ (applyFetchResult initHome (some ⟨.medium, "crowded area"⟩)).safetyStatus
        = deriveSafetyStatus initHome.isTripActive .medium :=
  safetyStatus_derivation_amended initHome .medium ⟨.medium, "crowded area"⟩
    (Or.inr (by decide))

/-- C2: from every session world — whatever the prior local state, store
contents and pending asynchronous fetch — the panic event leaves the local
state at `riskLevel = high`, `safetyStatus = emergency`, and the persisted
`risk_status` row upserted to `high` / "Panic button activated", all within
the `triggerPanic` operation itself. -/
theorem triggerPanic_forces_emergency (w : World) :
    (stepEvent w .panic).home.riskLevel = .high
    ∧ (stepEvent w .panic).home.safetyStatus = .emergency
    ∧ (stepEvent w .panic).db.riskStatus = some ⟨.high, "Panic button activated"⟩ := by
  cases h : w.home.isTripActive <;> simp [stepEvent, triggerPanic, h]

/-- C9: any failure of the external `/risk/calculate` call is swallowed by
the position callback: the stored risk keeps its last known value, no error
state is raised, and the location update itself still goes through. -/
theorem risk_service_failure_swallowed (s : MapState) (pos : Coords) :
    (onPositionSuccess s pos none).risk = s.risk
    ∧ (onPositionSuccess s pos none).error = none
    ∧ (onPositionSuccess s pos none).location = some pos := by
  exact ⟨rfl, rfl, rfl⟩

/-- C10: adding a guardian inserts exactly one row, with the trimmed name
and phone, precisely when the trimmed name has between 1 and 100 characters
and the trimmed phone between 10 and 20 characters; every other input
leaves the guardian state unchanged. -/
theorem handleAddGuardian_validates (st : GuardianState) (name phone : String) :
    handleAddGuardian st name phone
      = if 1 ≤ name.trim.length ∧ name.trim.length ≤ 100
            ∧ 10 ≤ phone.trim.length ∧ phone.trim.length ≤ 20 then
          { rows := st.rows ++ [⟨st.nextId, name.trim, phone.trim⟩]
            nextId := st.nextId + 1 }
        else st := by
  simp only [handleAddGuardian, guardianSchemaCheck, Bool.and_eq_true, decide_eq_true_eq]
  split_ifs with h1 h2 <;> simp_all

/-- C4: with a trip active (a current trip id held) and a persisted risk
row present, `endTrip` resets the local state to
`tripActive = false, currentTripId = none, riskLevel = low,
safetyStatus = safe`, resets the persisted risk row to `low` /
"Trip ended safely", keeps every trip row (none deleted), and rewrites the
current trip's row to `completed` with `ended_at` stamped and
`end_risk_level` equal to the risk level held immediately before the call. -/
theorem endTrip_completes_and_resets (s : HomeState) (db : DB) (now tid : Nat)
    (r0 : RiskStatusRow) (htid : s.currentTripId = some tid)
    (hrow : db.riskStatus = some r0) :
    (endTrip s db now).1.isTripActive = false
    ∧ (endTrip s db now).1.currentTripId = none
    ∧ (endTrip s db now).1.riskLevel = .low
    ∧ (endTrip s db now).1.safetyStatus = .safe
    ∧ (endTrip s db now).2.riskStatus = some ⟨.low, "Trip ended safely"⟩
    ∧ (endTrip s db now).2.trips.length = db.trips.length
    ∧ ∀ t ∈ db.trips, t.id = tid →
        ({ t with
            status := .completed
            endedAt := some now
            endRiskLevel := some s.riskLevel } : Trip) ∈ (endTrip s db now).2.trips := by
  simp only [endTrip, htid]
  refine ⟨trivial, trivial, trivial, trivial, by simp [hrow], by simp, ?_⟩
  intro t ht hid
  have hmem := List.mem_map_of_mem
    (f := fun t : Trip =>
      if t.id = tid then
        { t with
            status := .completed
            endedAt := some now
            endRiskLevel := some s.riskLevel }
      else t) ht
  simpa [hid] using hmem

/-- C4 (witness): ending the single active trip of a concrete session. -/
theorem endTrip_completes_and_resets_witness :
    (endTrip ⟨true, some 0, .medium, "", .monitoring⟩
        ⟨[⟨0, .active, none, none⟩], some ⟨.medium, "unfamiliar area"⟩, 1⟩ 7).1.isTripActive = false
    ∧ (endTrip ⟨true, some 0, .medium, "", .monitoring⟩
        ⟨[⟨0, .active, none, none⟩], some ⟨.medium, "unfamiliar area"⟩, 1⟩ 7).1.currentTripId = none
    ∧ (endTrip ⟨true, some 0, .medium, "", .monitoring⟩
        ⟨[⟨0, .active, none, none⟩], some ⟨.medium, "unfamiliar area"⟩, 1⟩ 7).1.riskLevel = .low
    ∧ (endTrip ⟨true, some 0, .medium, "", .monitoring⟩
        ⟨[⟨0, .active, none, none⟩], some ⟨.medium, "unfamiliar area"⟩, 1⟩ 7).1.safetyStatus = .safe
    ∧ (endTrip ⟨true, some 0, .medium, "", .monitoring⟩
        ⟨[⟨0, .active, none, none⟩], some ⟨.medium, "unfamiliar area"⟩, 1⟩ 7).2.riskStatus
        = some ⟨.low, "Trip ended safely"⟩
    ∧ (endTrip ⟨true, some 0, .medium, "", .monitoring⟩
        ⟨[⟨0, .active, none, none⟩], some ⟨.medium, "unfamiliar area"⟩, 1⟩ 7).2.trips.length = 1
    ∧ (⟨0, .completed, some 7, some .medium⟩ : Trip)
        ∈ (endTrip ⟨true, some 0, .medium, "", .monitoring⟩
            ⟨[⟨0, .active, none, none⟩], some ⟨.medium, "unfamiliar area"⟩, 1⟩ 7).2.trips := by
  have h := endTrip_completes_and_resets ⟨true, some 0, .medium, "", .monitoring⟩
    ⟨[⟨0, .active, none, none⟩], some ⟨.medium, "unfamiliar area"⟩, 1⟩ 7 0
    ⟨.medium, "unfamiliar area"⟩ rfl rfl
  exact ⟨h.1, h.2.1, h.2.2.1, h.2.2.2.1, h.2.2.2.2.1, h.2.2.2.2.2.1,
    h.2.2.2.2.2.2 ⟨0, .active, none, none⟩ (by simp) rfl⟩

/-- C6: `triggerPanic` always upserts the risk row to `high` /
"Panic button activated" (refreshing reason even when already in emergency);
on the trip side, if a trip is already active it inserts no trip row and
leaves the trip-related state unchanged, and if no trip is active it inserts
exactly one new active trip row (no location required), recording its id in
`currentTripId` and setting `isTripActive`. -/
theorem triggerPanic_trip_effect (s : HomeState) (db : DB) :
    (triggerPanic s db).2.riskStatus = some ⟨.high, "Panic button activated"⟩
    ∧ (if s.isTripActive = true then
        (triggerPanic s db).2.trips = db.trips
        ∧ (triggerPanic s db).2.nextId = db.nextId
        ∧ (triggerPanic s db).1.currentTripId = s.currentTripId
        ∧ (triggerPanic s db).1.isTripActive = true
      else
        (triggerPanic s db).2.trips
          = db.trips ++ [⟨db.nextId, .active, none, none⟩]
        ∧ (triggerPanic s db).1.currentTripId = some db.nextId
        ∧ (triggerPanic s db).1.isTripActive = true) := by
  cases h : s.isTripActive <;> simp [triggerPanic, h]

/-- C8: returning from the emergency view with a session user and an
existing risk row only rewrites the risk row to `low` /
"Emergency resolved": the resulting store is the old store with exactly that
field replaced, so every trip row (in particular the active one) and the
trip id generator are untouched, and the handler never touches the `Home`
component's `tripActive` / `currentTripId` state at all. -/
theorem handleReturnHome_resets_risk_only (db : DB) (r : RiskStatusRow)
    (hrow : db.riskStatus = some r) :
    handleReturnHome true db
      = { db with riskStatus := some ⟨.low, "Emergency resolved"⟩ } := by
  simp [handleReturnHome, hrow]

/-- C8 (witness): resolving the emergency of a concrete session leaves the
active trip row in place. -/
theorem handleReturnHome_resets_risk_only_witness :
    handleReturnHome true ⟨[⟨0, .active, none, none⟩], some ⟨.high, "Panic button activated"⟩, 1⟩
      = ⟨[⟨0, .active, none, none⟩], some ⟨.low, "Emergency resolved"⟩, 1⟩ :=
  handleReturnHome_resets_risk_only
    ⟨[⟨0, .active, none, none⟩], some ⟨.high, "Panic button activated"⟩, 1⟩
    ⟨.high, "Panic button activated"⟩ rfl

/-- C7: the demo simulator (i) started while no trip is active is a no-op;
(ii) started with a trip active and left to run emits exactly
`low, medium, high`, one per interval firing, and then stops by itself;
(iii) the stop button emits nothing (the last reached risk level stands) and
clears the running flag; (iv) from the stopped state no number of interval
firings emits anything or changes anything; (v) the start button always
resets an in-progress sequence to the beginning. -/
theorem demo_simulator_behaviour :
    (∀ d : DemoState, demoStep false d .start = (d, none))
    ∧ demoRun true ⟨false, 0⟩ [.start, .tick, .tick, .tick]
        = (⟨false, 0⟩, [.low, .medium, .high])
    ∧ (∀ (t : Bool) (d : DemoState), demoStep t d .stop = (⟨false, 0⟩, none))
    ∧ (∀ (t : Bool) (n : Nat),
        demoRun t ⟨false, 0⟩ (List.replicate n .tick) = (⟨false, 0⟩, []))
    ∧ (∀ d : DemoState, demoStep true d .start = (⟨true, 0⟩, some .low)) := by
  refine ⟨fun d => by simp [demoStep, handleAutoSimulate], by decide,
    fun t d => rfl, ?_, fun d => rfl⟩
  intro t n
  induction n with
  | zero => rfl
  | succ n ih => simpa [List.replicate, demoRun, demoStep, demoTick] using ih

/-- C5 (counterexample): the claim fails at a concrete interleaving.  With a
trip active and a stored `low` risk row, run
`fetchStart; panic; fetchResolve`: the fetch reads `low` before the panic
upsert and resolves after the panic call, and the final in-memory state is
`riskLevel = low, safetyStatus = safe` — the late result did overwrite the
panic's `high`. -/
theorem late_fetch_overwrites_panic :
    (runEvents
        { home := { isTripActive := true, currentTripId := some 0, riskLevel := .low
                    riskReason := "", safetyStatus := .monitoring }
          db := { trips := [⟨0, .active, none, none⟩], riskStatus := some ⟨.low, "all clear"⟩
                  nextId := 1 }
          pending := none }
        [.fetchStart, .panic, .fetchResolve]).home.riskLevel = .low
    ∧ (runEvents
        { home := { isTripActive := true, currentTripId := some 0, riskLevel := .low
                    riskReason := "", safetyStatus := .monitoring }
          db := { trips := [⟨0, .active, none, none⟩], riskStatus := some ⟨.low, "all clear"⟩
                  nextId := 1 }
          pending := none }
        [.fetchStart, .panic, .fetchResolve]).home.safetyStatus = .safe := by
  exact ⟨rfl, rfl⟩

/-- C5 (amended): `fetchRiskStatus` applies its result unconditionally, with
no sequence guard, so a risk fetch that resolves after the panic call
overwrites the in-memory risk level with whatever value it read: if the
fetch read the stored row before the panic upsert, the final in-memory
value is that (possibly lower) stored level, not `high`; the final state is
guaranteed `high`/`emergency` only when the fetch starts after the panic
upsert. -/
theorem panic_wins_only_over_later_fetches (w : World) (r : RiskStatusRow)
    (hrow : w.db.riskStatus = some r) :
    ((runEvents w [.panic, .fetchStart, .fetchResolve]).home.riskLevel = .high
      ∧ (runEvents w [.panic, .fetchStart, .fetchResolve]).home.safetyStatus = .emergency)
    ∧ (runEvents w [.fetchStart, .panic, .fetchResolve]).home.riskLevel = r.riskLevel := by
  cases h : w.home.isTripActive <;>
    simp [runEvents, stepEvent, triggerPanic, applyFetchResult, hrow, h]

/-- C5 (witness): the amended statement applied at a concrete session whose
stored risk row is `medium`. -/
theorem panic_wins_only_over_later_fetches_witness :
    ((runEvents
        { home := { isTripActive := true, currentTripId := some 0, riskLevel := .medium
                    riskReason := "", safetyStatus := .monitoring }
          db := { trips := [⟨0, .active, none, none⟩], riskStatus := some ⟨.medium, "crowded"⟩
                  nextId := 1 }
          pending := none }
        [.panic, .fetchStart, .fetchResolve]).home.riskLevel = .high
      ∧ (runEvents
        { home := { isTripActive := true, currentTripId := some 0, riskLevel := .medium
                    riskReason := "", safetyStatus := .monitoring }
          db := { trips := [⟨0, .active, none, none⟩], riskStatus := some ⟨.medium, "crowded"⟩
                  nextId := 1 }
          pending := none }
        [.panic, .fetchStart, .fetchResolve]).home.safetyStatus = .emergency)
    ∧ (runEvents
        { home := { isTripActive := true, currentTripId := some 0, riskLevel := .medium
                    riskReason := "", safetyStatus := .monitoring }
          db := { trips := [⟨0, .active, none, none⟩], riskStatus := some ⟨.medium, "crowded"⟩
                  nextId := 1 }
          pending := none }
        [.fetchStart, .panic, .fetchResolve]).home.riskLevel
        = (⟨.medium, "crowded"⟩ : RiskStatusRow).riskLevel :=
  panic_wins_only_over_later_fetches
    { home := { isTripActive := true, currentTripId := some 0, riskLevel := .medium
                riskReason := "", safetyStatus := .monitoring }
      db := { trips := [⟨0, .active, none, none⟩], riskStatus := some ⟨.medium, "crowded"⟩
              nextId := 1 }
      pending := none }
    ⟨.medium, "crowded"⟩ rfl

/-- Invariant tying the `Home` state to the store along the UI-driven trip
lifecycle: trip ids are below the generator and pairwise distinct, and the
local trip flag agrees with the store — no active rows while no trip id is
held, and every active row carries the held id while one is. -/
def TripInv (s : HomeState) (db : DB) : Prop :=
  (∀ t ∈ db.trips, t.id < db.nextId)
  ∧ db.trips.Pairwise (fun a b => a.id ≠ b.id)
  ∧ (s.currentTripId = none →
      s.isTripActive = false ∧ ∀ t ∈ db.trips, t.status ≠ TripStatus.active)
  ∧ (∀ tid, s.currentTripId = some tid →
      s.isTripActive = true ∧ ∀ t ∈ db.trips, t.status = TripStatus.active → t.id = tid)

lemma countActive_le_one (s : HomeState) (db : DB) (h : TripInv s db) :
    countActive db ≤ 1 := by
  obtain ⟨hlt, hpw, hnone, hsome⟩ := h
  cases htid : s.currentTripId with
  | none =>
    have hempty : db.trips.filter (fun t => t.status = TripStatus.active) = [] := by
      rw [List.filter_eq_nil_iff]
      intro t ht
      simpa using (hnone htid).2 t ht
    simp [countActive, hempty]
  | some tid =>
    obtain ⟨-, hallid⟩ := hsome tid htid
    have hpw' : (db.trips.filter (fun t => t.status = TripStatus.active)).Pairwise
        (fun a b => a.id ≠ b.id) := hpw.sublist (List.filter_sublist _)
    have hall : ∀ t ∈ db.trips.filter (fun t => t.status = TripStatus.active), t.id = tid := by
      intro t ht
      have hm := List.mem_filter.mp ht
      exact hallid t hm.1 (by simpa using hm.2)
    rcases hl : db.trips.filter (fun t => t.status = TripStatus.active) with - | ⟨a, - | ⟨b, l⟩⟩
    · simp [countActive, hl]
    · simp [countActive, hl]
    · exfalso
      rw [hl] at hpw' hall
      have hab : a.id ≠ b.id := (List.pairwise_cons.mp hpw').1 b (by simp)
      exact hab ((hall a (by simp)).trans (hall b (by simp)).symm)

lemma tripInv_startTrip (s : HomeState) (db : DB)
    (h : TripInv s db) (hact : s.isTripActive = false) :
    TripInv (startTrip s db).1 (startTrip s db).2 := by
  obtain ⟨hlt, hpw, hnone, hsome⟩ := h
  have htid : s.currentTripId = none := by
    cases htid : s.currentTripId with
    | none => rfl
    | some tid =>
      have := (hsome tid htid).1
      rw [this] at hact
      cases hact
  obtain ⟨-, hno⟩ := hnone htid
  refine ⟨?_, ?_, ?_, ?_⟩
  · intro t ht
    simp only [startTrip, List.mem_append, List.mem_singleton] at ht ⊢
    rcases ht with ht | ht
    · exact Nat.lt_succ_of_lt (hlt t ht)
    · simp [ht]
  · show (db.trips ++ [_]).Pairwise _
    rw [List.pairwise_append]
    refine ⟨hpw, by simp, ?_⟩
    intro a ha b hb
    rw [List.mem_singleton] at hb
    subst hb
    exact Nat.ne_of_lt (hlt a ha)
  · intro hcontra
    simp [startTrip] at hcontra
  · intro tid htid2
    have htid3 : tid = db.nextId := by
      simpa [startTrip] using htid2.symm
    subst htid3
    refine ⟨rfl, ?_⟩
    intro t ht hactive
    simp only [startTrip, List.mem_append, List.mem_singleton] at ht
    rcases ht with ht | ht
    · exact absurd hactive (hno t ht)
    · simp [ht]

lemma tripInv_endTrip (s : HomeState) (db : DB) (now : Nat)
    (h : TripInv s db) :
    TripInv (endTrip s db now).1 (endTrip s db now).2 := by
  obtain ⟨hlt, hpw, hnone, hsome⟩ := h
  cases htid : s.currentTripId with
  | none =>
    simp only [endTrip, htid]
    exact ⟨hlt, hpw, hnone, hsome⟩
  | some tid =>
    obtain ⟨-, hallid⟩ := hsome tid htid
    simp only [endTrip, htid]
    have hid : ∀ t : Trip,
        (if t.id = tid then
          ({ t with
              status := TripStatus.completed
              endedAt := some now
              endRiskLevel := some s.riskLevel } : Trip)
        else t).id = t.id := by
      intro t
      by_cases h2 : t.id = tid <;> simp [h2]
    refine ⟨?_, ?_, ?_, ?_⟩
    · intro t ht
      rw [List.mem_map] at ht
      obtain ⟨u, hu, rfl⟩ := ht
      rw [hid]
      exact hlt u hu
    · rw [List.pairwise_map]
      refine hpw.imp ?_
      intro a b hab
      rw [hid, hid]
      exact hab
    · intro _
      refine ⟨rfl, ?_⟩
      intro t ht
      rw [List.mem_map] at ht
      obtain ⟨u, hu, rfl⟩ := ht
      by_cases h2 : u.id = tid
      · simp [h2]
      · simp only [h2, if_false]
        intro hactive
        exact h2 (hallid u hu hactive)
    · intro tid2 htid2
      simp at htid2

lemma tripInv_uiStep (s : HomeState) (db : DB) (e : UIEvent) (h : TripInv s db) :
    TripInv (uiStep s db e).1 (uiStep s db e).2 := by
  cases e with
  | toggle =>
    cases hact : s.isTripActive with
    | true =>
      simpa [uiStep, handleTripToggle, hact] using h
    | false =>
      simp only [uiStep, handleTripToggle, hact, Bool.false_eq_true, if_false]
      exact tripInv_startTrip s db h hact
  | endTripConfirm now => exact tripInv_endTrip s db now h

lemma tripInv_uiRun (s : HomeState) (db : DB) (evs : List UIEvent) (h : TripInv s db) :
    TripInv (uiRun s db evs).1 (uiRun s db evs).2 := by
  induction evs generalizing s db with
  | nil => exact h
  | cons e es ih => exact ih _ _ (tripInv_uiStep s db e h)

lemma tripInv_init : TripInv initHome emptyDB := by
  refine ⟨by simp [emptyDB], by simp [emptyDB], fun _ => ⟨rfl, by simp [emptyDB]⟩, ?_⟩
  intro tid htid
  simp [initHome] at htid

/-- C3 (counterexample): `startTrip` performs no query for an existing
active trip.  From the initial session, calling `startTrip` twice in a row
creates a second trip row (two rows, both active) and changes
`currentTripId` from `some 0` to `some 1`, refuting the claimed idempotence
of a second call. -/
theorem startTrip_not_idempotent :
    (startTrip (startTrip initHome emptyDB).1 (startTrip initHome emptyDB).2).2.trips.length = 2
    ∧ countActive (startTrip (startTrip initHome emptyDB).1 (startTrip initHome emptyDB).2).2 = 2
    ∧ (startTrip initHome emptyDB).1.currentTripId = some 0
    ∧ (startTrip (startTrip initHome emptyDB).1 (startTrip initHome emptyDB).2).1.currentTripId
        = some 1 := by
  exact ⟨rfl, by decide, rfl, rfl⟩

/-- C3 (amended): `startTrip` itself does not check for an existing active
trip (a direct second call inserts a duplicate row).  The at-most-one-
active-trip property holds one level up: trips are only started through
`handleTripToggle`, which calls `startTrip` only while `isTripActive` is
false — under every sequence of toggle / end-trip operations from the
initial session, at most one trip row is active, and a toggle while a trip
is active creates no row and changes nothing (it only opens the end-trip
dialog). -/
theorem atMostOneActiveTrip_via_toggle :
    (∀ evs : List UIEvent, countActive (uiRun initHome emptyDB evs).2 ≤ 1)
    ∧ (∀ (s : HomeState) (db : DB), s.isTripActive = true → uiStep s db .toggle = (s, db)) := by
  constructor
  · intro evs
    exact countActive_le_one _ _ (tripInv_uiRun _ _ evs tripInv_init)
  · intro s db hact
    simp [uiStep, handleTripToggle, hact]

/-- C3 (witness): the amended statement applied at a concrete event list
and a concrete active session. -/
theorem atMostOneActiveTrip_via_toggle_witness :
    countActive (uiRun initHome emptyDB [.toggle, .toggle, .endTripConfirm 4, .toggle]).2 ≤ 1
    ∧ uiStep ⟨true, some 0, .low, "", .monitoring⟩ ⟨[⟨0, .active, none, none⟩], none, 1⟩ .toggle
        = (⟨true, some 0, .low, "", .monitoring⟩, ⟨[⟨0, .active, none, none⟩], none, 1⟩) :=
  ⟨atMostOneActiveTrip_via_toggle.1 [.toggle, .toggle, .endTripConfirm 4, .toggle],
   atMostOneActiveTrip_via_toggle.2 _ _ rfl⟩

end NariKawach
